import Mathlib

/-!
Shallow embedding of the control core of the IR-floor-heating repository
(custom_components/ir_floor_heating) and proofs about its behaviour.

Numbers are modelled as rationals (ℚ): all the control arithmetic in the
source is plain field arithmetic on Python floats, and every concrete
scenario checked below is exact.  Wall-clock time (datetime.now in the
source) is passed to each operation as an explicit timestamp in seconds.
-/

namespace IRFloor

/-- Computable minimum on ℚ (the order-theoretic `min` does not reduce in
the kernel; this `if`-based form agrees with it, see `qmin_eq`). -/
def qmin (a b : ℚ) : ℚ := if a ≤ b then a else b

/-- Computable maximum on ℚ; agrees with `max`, see `qmax_eq`. -/
def qmax (a b : ℚ) : ℚ := if a ≤ b then b else a

/-! ## pid.py : PIDController -/

/-- Gains of a PIDController (`kp`, `ki`, `kd` from `PIDController.__init__`). -/
structure PIDConfig where
  kp : ℚ
  ki : ℚ
  kd : ℚ
deriving DecidableEq, Repr

/-- Mutable state of a PIDController: `_integral_error` and
`_last_process_variable`. -/
structure PIDState where
  integralError : ℚ
  lastPV : Option ℚ
deriving DecidableEq, Repr

/-- Initial PID state (`_integral_error = 0.0`, `_last_process_variable = None`). -/
def PIDState.init : PIDState := ⟨0, none⟩

/-- Embedding of `PIDController.calculate`: returns the clamped demand and
the updated state.  Mirrors pid.py lines 39-81. -/
def pidCalculate (c : PIDConfig) (s : PIDState) (setpoint processVariable dt : ℚ) :
    ℚ × PIDState :=
  let error := setpoint - processVariable
  let pTerm := c.kp * error
  let integral1 := s.integralError + error * dt
  let maxIntegral := if c.ki > 0 then 100 / c.ki else 0
  let integral2 := qmax 0 (qmin maxIntegral integral1)
  let iTerm := c.ki * integral2
  let dTerm :=
    match s.lastPV with
    | none => 0
    | some lastPV =>
        if dt > 0 then -c.kd * (processVariable - lastPV) / dt else 0
  let demand := pTerm + iTerm + dTerm
  (qmax 0 (qmin 100 demand), ⟨integral2, some processVariable⟩)

/-- Embedding of `PIDController.pause_integration`: zeroes the integral. -/
def pidPauseIntegration (s : PIDState) : PIDState := ⟨0, s.lastPV⟩

/-- Embedding of `PIDController.reset`: clears all state. -/
def pidReset : PIDState := ⟨0, none⟩

/-- Run `n` successive `calculate` calls with fixed setpoint, process
variable and dt; returns the list of outputs and the final state. -/
def pidRun (c : PIDConfig) (s : PIDState) (setpoint pv dt : ℚ) :
    ℕ → List ℚ × PIDState
  | 0 => ([], s)
  | n + 1 =>
      let step := pidCalculate c s setpoint pv dt
      let rest := pidRun c step.2 setpoint pv dt n
      (step.1 :: rest.1, rest.2)

/-! ## tpi.py : TPIController -/

/-- Fixed parameters of a TPIController, in seconds
(`cycle_period`, `min_cycle_duration`). -/
structure TPIConfig where
  cyclePeriod : ℚ
  minCycleDuration : ℚ
deriving DecidableEq, Repr

/-- Mutable state of a TPIController: `_cycle_start_time`, and the pair
`(_last_relay_state, _last_state_change_time)`.  In the source the two
latter fields are always both None or both set; they are modelled as one
optional pair. -/
structure TPIState where
  cycleStart : Option ℚ
  lastRelay : Option (Bool × ℚ)
deriving DecidableEq, Repr

/-- Initial TPI state (all fields None). -/
def TPIState.init : TPIState := ⟨none, none⟩

/-- Embedding of `TPIController.get_relay_state` (tpi.py lines 33-98).
`now` is the wall-clock timestamp in seconds.  Note that the source
recomputes `on_duration_seconds` from the demand passed to this very call:
there is no latched on-duration in the state. -/
def tpiGetRelayState (c : TPIConfig) (s : TPIState) (now demandPercent : ℚ) :
    Bool × TPIState :=
  let cycleStart0 := s.cycleStart.getD now
  let timeInCycle0 := now - cycleStart0
  let rollover := timeInCycle0 ≥ c.cyclePeriod
  let cycleStart := if rollover then now else cycleStart0
  let timeInCycle := if rollover then 0 else timeInCycle0
  let demandClamped := qmax 0 (qmin 100 demandPercent)
  let onDuration0 := demandClamped / 100 * c.cyclePeriod
  let onDuration :=
    if onDuration0 < c.minCycleDuration then 0
    else if onDuration0 > c.cyclePeriod - c.minCycleDuration then c.cyclePeriod
    else onDuration0
  let idealState : Bool := decide (timeInCycle < onDuration)
  match s.lastRelay with
  | none => (idealState, ⟨some cycleStart, some (idealState, now)⟩)
  | some (lastState, lastChange) =>
      if idealState ≠ lastState then
        if now - lastChange ≥ c.minCycleDuration then
          (idealState, ⟨some cycleStart, some (idealState, now)⟩)
        else
          (lastState, ⟨some cycleStart, some (lastState, lastChange)⟩)
      else
        (lastState, ⟨some cycleStart, some (lastState, lastChange)⟩)

/-- Embedding of `TPIController.reset_cycle`: clears cycle and hysteresis
history. -/
def tpiResetCycle : TPIState := ⟨none, none⟩

/-! ## tpi.py : BudgetBucket -/

/-- Budget bucket state: `capacity`, `refill_rate` (tokens per second),
current `tokens`, and `last_update` timestamp. -/
structure BudgetBucket where
  capacity : ℚ
  refillRate : ℚ
  tokens : ℚ
  lastUpdate : ℚ
deriving DecidableEq, Repr

/-- Embedding of `BudgetBucket._refill`: continuous refill capped at
capacity. -/
def bucketRefill (b : BudgetBucket) (now : ℚ) : BudgetBucket :=
  { b with
    tokens := qmin b.capacity (b.tokens + (now - b.lastUpdate) * b.refillRate)
    lastUpdate := now }

/-- Embedding of `BudgetBucket.consume`: refill first, then consume if
forced or enough tokens are available. -/
def bucketConsume (b : BudgetBucket) (now amount : ℚ) (force : Bool) :
    Bool × BudgetBucket :=
  let r := bucketRefill b now
  if force ∨ r.tokens ≥ amount then
    (true, { r with tokens := r.tokens - amount })
  else
    (false, r)

/-! ## control.py : DualPIDController -/

/-- Embedding of `DualPIDController.get_floor_target` (control.py lines
27-58): the dynamic floor-temperature setpoint, ending with the absolute
maximum guard `min(max_floor_temp, floor_target)`. -/
def getFloorTarget (roomTemp targetRoom maxFloorTemp comfortOffset : ℚ)
    (maintainComfort boostMode : Bool) (boostTempDiff : ℚ) : ℚ :=
  let floorTarget :=
    if maintainComfort then
      if targetRoom > roomTemp then targetRoom + comfortOffset
      else roomTemp + comfortOffset
    else
      if boostMode ∧ targetRoom - roomTemp ≥ boostTempDiff then
        roomTemp + qmin (comfortOffset + (targetRoom - roomTemp)) (comfortOffset * (5/2))
      else roomTemp + comfortOffset
  qmin maxFloorTemp floorTarget

/-- The floor target before the absolute maximum guard is applied (the
value the source computes just before its final `min`); used to state how
the guard clamps. -/
def rawFloorTarget (roomTemp targetRoom comfortOffset : ℚ)
    (maintainComfort boostMode : Bool) (boostTempDiff : ℚ) : ℚ :=
  if maintainComfort then
    if targetRoom > roomTemp then targetRoom + comfortOffset
    else roomTemp + comfortOffset
  else
    if boostMode ∧ targetRoom - roomTemp ≥ boostTempDiff then
      roomTemp + qmin (comfortOffset + (targetRoom - roomTemp)) (comfortOffset * (5/2))
    else roomTemp + comfortOffset

/-- Result of a dual-PID calculation (control.py `PIDResult`). -/
structure PIDResult where
  roomDemand : ℚ
  floorDemand : ℚ
  finalDemand : ℚ
  floorTarget : ℚ
deriving DecidableEq, Repr

/-- Embedding of `DualPIDController.calculate` (control.py lines 60-124):
returns the demand result and the updated room/floor PID states. -/
def dualPidCalculate (roomCfg floorCfg : PIDConfig) (roomS floorS : PIDState)
    (roomTemp targetRoom floorTemp maxFloorTemp comfortOffset : ℚ)
    (maintainComfort boostMode : Bool) (boostTempDiff dt : ℚ) :
    PIDResult × PIDState × PIDState :=
  let floorTarget :=
    getFloorTarget roomTemp targetRoom maxFloorTemp comfortOffset
      maintainComfort boostMode boostTempDiff
  let room := pidCalculate roomCfg roomS targetRoom roomTemp dt
  let floor := pidCalculate floorCfg floorS floorTarget floorTemp dt
  if maintainComfort ∧ roomTemp ≥ targetRoom then
    (⟨room.1, floor.1, floor.1, floorTarget⟩, pidPauseIntegration room.2, floor.2)
  else
    let finalDemand := qmin room.1 floor.1
    let roomS2 := if finalDemand < room.1 then pidPauseIntegration room.2 else room.2
    (⟨room.1, floor.1, finalDemand, floorTarget⟩, roomS2, floor.2)

/-! ## heater_manager.py : HeaterShuffler -/

/-- A heater relay: opaque entity id (modelled as ℕ) and power rating. -/
structure Heater where
  id : ℕ
  power : ℚ
deriving DecidableEq, Repr

/-- Computed per-heater state (`HeaterState` dataclass). -/
structure HState where
  id : ℕ
  shouldBeOn : Bool
  dutyCycle : ℚ
deriving DecidableEq, Repr

/-- Fixed configuration of a HeaterShuffler. -/
structure ShufflerConfig where
  heaters : List Heater
  cyclePeriod : ℚ
  minCycleDuration : ℚ
deriving DecidableEq, Repr

/-- Mutable state of a HeaterShuffler: `_rotation_index` and
`_cycle_start_time` (the actuation bookkeeping `_last_states` /
`_toggle_counts` is I/O side-state not needed by the claims below). -/
structure ShufflerState where
  rotationIndex : ℕ
  cycleStart : Option ℚ
deriving DecidableEq, Repr

/-- Embedding of `HeaterShuffler._get_prioritized_heaters`: rotate the
heater list left by `rotation_index % len`. -/
def getPrioritizedHeaters (heaters : List Heater) (rotationIndex : ℕ) : List Heater :=
  if heaters.length ≤ 1 then heaters
  else
    let index := rotationIndex % heaters.length
    heaters.drop index ++ heaters.take index

/-- Embedding of the cascading power-bucket loop of
`HeaterShuffler._calculate_heater_states` (heater_manager.py lines
179-201): walks the prioritized heaters consuming `required_power`.
Returns the per-heater states in priority order together with the
designated TPI heater (id, duty cycle), if any.  The source's
"ensure all heaters are in the dictionary" pass adds nothing because the
loop already visits every heater. -/
def calculateHeaterStatesAux : List Heater → ℚ → List HState × Option (ℕ × ℚ)
  | [], _ => ([], none)
  | h :: rest, rp =>
      if rp ≥ h.power then
        let r := calculateHeaterStatesAux rest (rp - h.power)
        (⟨h.id, true, 100⟩ :: r.1, r.2)
      else if rp > 0 then
        let duty := rp / h.power * 100
        let r := calculateHeaterStatesAux rest 0
        (⟨h.id, false, duty⟩ :: r.1, some (r.2.getD (h.id, duty)))
      else
        let r := calculateHeaterStatesAux rest rp
        (⟨h.id, false, 0⟩ :: r.1, r.2)

/-- Running `required_power` before the heater at position `i` of the
priority order is processed (the loop variable of
`_calculate_heater_states` on entry to iteration `i`). -/
def cascadeLeftover : List Heater → ℚ → ℕ → ℚ
  | _, rp, 0 => rp
  | [], rp, _ + 1 => rp
  | h :: rest, rp, i + 1 =>
      if rp ≥ h.power then cascadeLeftover rest (rp - h.power) i
      else if rp > 0 then cascadeLeftover rest 0 i
      else cascadeLeftover rest rp i

/-- Embedding of `HeaterShuffler._calculate_tpi_state` (heater_manager.py
lines 217-254): TPI relay decision for the fractional heater; rolls the
cycle over and increments the rotation index when the period has elapsed. -/
def calculateTpiState (cfg : ShufflerConfig) (s : ShufflerState) (now dutyCycle : ℚ) :
    Bool × ShufflerState :=
  let cycleStart0 := s.cycleStart.getD now
  let timeInCycle0 := now - cycleStart0
  let rollover := timeInCycle0 ≥ cfg.cyclePeriod
  let cycleStart := if rollover then now else cycleStart0
  let timeInCycle := if rollover then (0 : ℚ) else timeInCycle0
  let rotationIdx := if rollover then s.rotationIndex + 1 else s.rotationIndex
  let onDuration0 := dutyCycle / 100 * cfg.cyclePeriod
  let onDuration :=
    if onDuration0 < cfg.minCycleDuration then 0
    else if onDuration0 > cfg.cyclePeriod - cfg.minCycleDuration then cfg.cyclePeriod
    else onDuration0
  (decide (timeInCycle < onDuration), ⟨rotationIdx, some cycleStart⟩)

/-- Embedding of `HeaterShuffler.async_apply_demand` (heater_manager.py
lines 109-142) up to the actuation service calls: clamp the demand,
compute `required_power` from the total capacity, run the cascade over the
rotated priority order, and let the TPI timing decide the fractional
heater's relay state. -/
def applyDemand (cfg : ShufflerConfig) (s : ShufflerState) (now demandPercent : ℚ) :
    List HState × ShufflerState :=
  let demandClamped := qmax 0 (qmin 100 demandPercent)
  let prioritized := getPrioritizedHeaters cfg.heaters s.rotationIndex
  let totalCapacity := (cfg.heaters.map Heater.power).sum
  let requiredPower := totalCapacity * (demandClamped / 100)
  let r := calculateHeaterStatesAux prioritized requiredPower
  match r.2 with
  | none => (r.1, s)
  | some (tid, duty) =>
      let t := calculateTpiState cfg s now duty
      (r.1.map (fun st => if st.id = tid then ⟨st.id, t.1, st.dutyCycle⟩ else st), t.2)

/-! ## filters.py : FusionKalmanFilter -/

/-- Tuning parameters of the fusion filter (`KalmanTuning` dataclass). -/
structure KalmanTuning where
  kfFloorGain : ℚ
  kfRoomGain : ℚ
  qVarFloor : ℚ
  qVarRoom : ℚ
  rVar : ℚ
deriving DecidableEq, Repr

/-- Default tuning: `kf_floor_gain=0.0001`, `kf_room_gain=0.00001`,
`q_var_floor=0.001`, `q_var_room=0.0001`, `r_var=0.1`. -/
def KalmanTuning.default : KalmanTuning :=
  ⟨1/10000, 1/100000, 1/1000, 1/10000, 1/10⟩

/-- State vector `x = [T_floor, T_floor_dot, T_room, T_room_dot]` of the
filter, stored componentwise. -/
structure KFVec where
  tFloor : ℚ
  tFloorDot : ℚ
  tRoom : ℚ
  tRoomDot : ℚ
deriving DecidableEq, Repr

/-- Full filter state: state estimate `x`, covariance `P`, and the
currently configured time step `dt`. -/
structure KFState where
  x : KFVec
  P : Matrix (Fin 4) (Fin 4) ℚ
  dt : ℚ

/-- State transition matrix `F` (Newtonian kinematics, filters.py line 73). -/
def kfF (dt : ℚ) : Matrix (Fin 4) (Fin 4) ℚ :=
  !![1, dt, 0, 0; 0, 1, 0, 0; 0, 0, 1, dt; 0, 0, 0, 1]

/-- Block-diagonal process noise `Q` built from
`Q_discrete_white_noise(dim=2, dt, var)` per axis, whose 2x2 block is
`var * [[dt^4/4, dt^3/2], [dt^3/2, dt^2]]` (filters.py `_update_q_matrix`). -/
def kfQ (t : KalmanTuning) (dt : ℚ) : Matrix (Fin 4) (Fin 4) ℚ :=
  !![t.qVarFloor * (dt^4/4), t.qVarFloor * (dt^3/2), 0, 0;
     t.qVarFloor * (dt^3/2), t.qVarFloor * dt^2, 0, 0;
     0, 0, t.qVarRoom * (dt^4/4), t.qVarRoom * (dt^3/2);
     0, 0, t.qVarRoom * (dt^3/2), t.qVarRoom * dt^2]

/-- Embedding of the prediction step `kf.predict(u=[[power]])`:
`x' = F·x + B·power` with the control matrix
`B = [g_f·dt²/2, g_f·dt, g_r·dt²/2, g_r·dt]ᵀ` (filters.py lines 77-84),
written out componentwise, and `P' = F·P·Fᵀ + Q`. -/
def predictStep (t : KalmanTuning) (s : KFState) (power : ℚ) : KFState :=
  { x :=
      { tFloor := s.x.tFloor + s.dt * s.x.tFloorDot + t.kfFloorGain * s.dt^2 / 2 * power
        tFloorDot := s.x.tFloorDot + t.kfFloorGain * s.dt * power
        tRoom := s.x.tRoom + s.dt * s.x.tRoomDot + t.kfRoomGain * s.dt^2 / 2 * power
        tRoomDot := s.x.tRoomDot + t.kfRoomGain * s.dt * power }
    P := kfF s.dt * s.P * (kfF s.dt).transpose + kfQ t s.dt
    dt := s.dt }

/-- The `dt` reconfiguration at the top of `FusionKalmanFilter.update`
(filters.py lines 139-147): adopt the new `dt` only when it is positive
and differs from the current one by more than `DT_EPSILON = 1e-4`
(`F`, `B`, `Q` are regenerated from the stored `dt`, so adopting `dt` is
all that is needed). -/
def dtAdjust (s : KFState) (dtArg : ℚ) : KFState :=
  if dtArg > 0 ∧ |dtArg - s.dt| > 1/10000 then { s with dt := dtArg } else s

/-- Valid measurements with their measurement-row indices: embedding of
the gating loops of `FusionKalmanFilter.update` (filters.py lines
157-166).  `off` is the index offset (0 for floor sensors, `num_floor`
for room sensors). -/
def collectValid : List (Option ℚ) → ℕ → List (ℚ × ℕ)
  | [], _ => []
  | none :: rest, off => collectValid rest (off + 1)
  | some v :: rest, off => (v, off) :: collectValid rest (off + 1)

/-- Embedding of `FusionKalmanFilter.update` (filters.py lines 116-183).
The measurement update itself (`self.kf.update(z, R=r_v, H=h_v)`) is
filterpy library code, outside this repository; it is taken as an
arbitrary function `measUpdate` of the predicted state and the valid
`(value, index)` measurement list, so every theorem below holds for any
implementation of it.  The gating is the repository's: when no reading is
valid, the function returns right after the prediction step and
`measUpdate` is never consulted. -/
def fusionUpdate (t : KalmanTuning)
    (measUpdate : KFState → List (ℚ × ℕ) → KFState)
    (numFloor : ℕ) (s : KFState)
    (floorValues roomValues : List (Option ℚ)) (power dtArg : ℚ) : KFState :=
  let s1 := dtAdjust s dtArg
  let s2 := predictStep t s1 power
  let z := collectValid floorValues 0 ++ collectValid roomValues numFloor
  if z.isEmpty then s2 else measUpdate s2 z

/-- Fused floor temperature: position component 0 of the state
(`float(self.kf.x[0])`). -/
def kfFloorTemp (s : KFState) : ℚ := s.x.tFloor

/-- Fused room temperature: position component 2 of the state
(`float(self.kf.x[2])`). -/
def kfRoomTemp (s : KFState) : ℚ := s.x.tRoom

/-! ## sensor_manager.py : SensorManager -/

/-- Result of Python's `float(str)` on a host state string: a finite
rational, or one of the non-finite values that `float` parses without
raising (`float("nan")`, `float("inf")`, `float("-inf")` all succeed). -/
inductive PyFloat where
  | finite (q : ℚ)
  | nan
  | inf
  | negInf
deriving DecidableEq, Repr

/-- A tracked entity's host state as seen by
`SensorManager._get_sensor_values`: the distinguished `unavailable` /
`unknown` states, or any other state string, represented by what Python's
`float` returns for it (`none` when `float` raises ValueError, i.e. the
string is not numeric). -/
inductive HostState where
  | unavailable
  | unknown
  | strVal (parsed : Option PyFloat)
deriving DecidableEq, Repr

/-- Embedding of the per-entity body of `SensorManager._get_sensor_values`
(sensor_manager.py lines 38-47): a missing entity, `unavailable`,
`unknown`, or a ValueError from `float` yields None; any successfully
parsed float — finite or not — is appended as-is. -/
def getSensorValue : Option HostState → Option PyFloat
  | none => none
  | some HostState.unavailable => none
  | some HostState.unknown => none
  | some (HostState.strVal none) => none
  | some (HostState.strVal (some f)) => some f

/-- Embedding of `SensorManager._get_sensor_values` over a list of host
states. -/
def getSensorValues (states : List (Option HostState)) : List (Option PyFloat) :=
  states.map getSensorValue

/-! ## climate.py : IRFloorHeatingClimate (control-relevant core) -/

/-- Immutable configuration of the climate entity relevant to the control
tick (fields of `ClimateConfig` / attributes set in `__init__`). -/
structure ClimateCfg where
  maxFloorTemp : ℚ
  maxFloorTempDiff : ℚ
  safetyHysteresis : ℚ
  boostMode : Bool
  boostTempDiff : ℚ
  maintainComfortLimit : Bool
  roomPidCfg : PIDConfig
  floorPidCfg : PIDConfig
  kfTuning : KalmanTuning
  kfNumFloor : ℕ

/-- Mutable state of the climate entity relevant to the control tick. -/
structure ClimateState where
  floorTemp : Option ℚ
  roomTemp : Option ℚ
  targetTemp : Option ℚ
  active : Bool
  hvacHeat : Bool
  vetoActive : Bool
  budget : BudgetBucket
  roomPid : PIDState
  floorPid : PIDState
  tpi : TPIState
  roomDemand : ℚ
  floorDemand : ℚ
  finalDemand : ℚ
  demandPercent : ℚ
  kf : KFState

/-- Embedding of `IRFloorHeatingClimate._check_safety_veto` (climate.py
lines 692-772).  Returns the new veto flag and budget.  When either fused
temperature is absent the gate returns True (fail-safe) without touching
the budget; otherwise the hysteresis state machine runs and budget tokens
are consumed on transitions. -/
def checkSafetyVeto (maxFloorTemp hysteresis : ℚ)
    (floorTemp roomTemp : Option ℚ) (vetoActive : Bool)
    (budget : BudgetBucket) (bypassHysteresis : Bool) (now : ℚ) :
    Bool × BudgetBucket :=
  match floorTemp, roomTemp with
  | some ft, some _ =>
      let shouldVeto :=
        if ft ≥ maxFloorTemp then true
        else if ¬bypassHysteresis ∧ ft > maxFloorTemp - hysteresis then vetoActive
        else false
      if shouldVeto ≠ vetoActive then
        if shouldVeto then (true, (bucketConsume budget now 1 true).2)
        else
          let r := bucketConsume budget now 1 false
          if r.1 then (false, r.2) else (true, r.2)
      else (vetoActive, budget)
  | _, _ => (true, budget)

/-- Embedding of `IRFloorHeatingClimate._calculate_demand` (climate.py
lines 830-866): run the dual-PID when all three temperatures are present
(the source calls `calculate` without `dt`, so `dt = 1.0`), else zero the
demands. -/
def calculateDemand (cfg : ClimateCfg) (s : ClimateState) : ClimateState :=
  match s.roomTemp, s.targetTemp, s.floorTemp with
  | some rt, some tt, some ft =>
      let r := dualPidCalculate cfg.roomPidCfg cfg.floorPidCfg s.roomPid s.floorPid
        rt tt ft cfg.maxFloorTemp cfg.maxFloorTempDiff cfg.maintainComfortLimit
        cfg.boostMode cfg.boostTempDiff 1
      { s with
        roomDemand := r.1.roomDemand
        floorDemand := r.1.floorDemand
        finalDemand := r.1.finalDemand
        roomPid := r.2.1
        floorPid := r.2.2 }
  | _, _, _ =>
      { s with roomDemand := 0, floorDemand := 0, finalDemand := 0 }

/-- Embedding of `IRFloorHeatingClimate._async_control_heating` (climate.py
lines 774-828) from the point where the fused temperatures have been
produced: store them, run the activation check, bail out when inactive or
OFF, evaluate the safety veto (bypassing hysteresis on forced updates),
zero all demands while vetoed or else run the dual-PID, and reset the TPI
cycle on activation or forced updates. -/
def controlHeating (cfg : ClimateCfg) (s : ClimateState)
    (newFloor newRoom : Option ℚ) (force : Bool) (now : ℚ) : ClimateState :=
  let s1 := { s with floorTemp := newFloor, roomTemp := newRoom }
  let activates :=
    ¬s1.active ∧ newFloor.isSome ∧ newRoom.isSome ∧ s1.targetTemp.isSome
  let s2 :=
    if activates then { s1 with active := true, tpi := tpiResetCycle } else s1
  if ¬s2.active ∨ ¬s2.hvacHeat then s2
  else
    let v := checkSafetyVeto cfg.maxFloorTemp cfg.safetyHysteresis
      s2.floorTemp s2.roomTemp s2.vetoActive s2.budget force now
    let s3 := { s2 with vetoActive := v.1, budget := v.2 }
    let s4 :=
      if v.1 then { s3 with roomDemand := 0, floorDemand := 0, finalDemand := 0 }
      else calculateDemand cfg s3
    let s5 := { s4 with demandPercent := s4.finalDemand }
    if force then { s5 with tpi := tpiResetCycle } else s5

/-- One full control tick (`_async_control_heating` including the fused
sensor update, climate.py lines 778-792): run the fusion filter on the raw
readings, then feed its (always numeric) fused temperatures into the
control path.  `measUpdate` is the filterpy measurement update, arbitrary
as in `fusionUpdate`. -/
def controlTick (cfg : ClimateCfg)
    (measUpdate : KFState → List (ℚ × ℕ) → KFState) (s : ClimateState)
    (floorReadings roomReadings : List (Option ℚ)) (power dtKF : ℚ)
    (force : Bool) (now : ℚ) : ClimateState :=
  let kf2 := fusionUpdate cfg.kfTuning measUpdate cfg.kfNumFloor s.kf
    floorReadings roomReadings power dtKF
  controlHeating cfg { s with kf := kf2 }
    (some (kfFloorTemp kf2)) (some (kfRoomTemp kf2)) force now

end IRFloor

/-! ## Supporting lemmas -/

namespace IRFloor

theorem qmin_eq (a b : ℚ) : qmin a b = min a b := (min_def a b).symm

theorem qmax_eq (a b : ℚ) : qmax a b = max a b := (max_def a b).symm

theorem collectValid_allNone :
    ∀ (vals : List (Option ℚ)) (off : ℕ), (∀ v ∈ vals, v = none) →
      collectValid vals off = [] := by
  intro vals
  induction vals with
  | nil => intro off _; rfl
  | cons v rest ih =>
      intro off hall
      have hv : v = none := hall v (List.mem_cons_self v rest)
      subst hv
      simpa [collectValid] using ih (off + 1) fun w hw => hall w (List.mem_cons_of_mem _ hw)

end IRFloor

/-! ## Claim theorems -/

open IRFloor

/-- Claim C1 (code bug in tpi.py): the claim — and the repository's own
`test_demand_latching` — require the on-duration to be latched at the
cycle start, so that with cycle_period 900 s and min_cycle_duration 60 s a
demand of 50 % at t = 0 keeps the relay ON until t ≥ 450 s regardless of
later demand values.  The code instead recomputes the on-duration from the
demand passed to each call (there is no `_current_on_duration` attribute,
although the test asserts one): this theorem evaluates the embedding at
the spec's own scenario and shows the relay is reported OFF at t = 110 s
after a demand change to 0 %, while still inside the claimed latched
window (110 < 450). -/
theorem claimC1_divergence :
    (tpiGetRelayState ⟨900, 60⟩ TPIState.init 0 50).1 = true ∧
    (tpiGetRelayState ⟨900, 60⟩
      (tpiGetRelayState ⟨900, 60⟩ TPIState.init 0 50).2 110 0).1 = false ∧
    ((110 : ℚ) < 450) := by
  refine ⟨?_, ?_, by norm_num⟩ <;>
    norm_num [tpiGetRelayState, TPIState.init, Option.getD, qmin, qmax]

/-- Claim C2, counterexample: with room 26 °C, comfort offset 5, maximum
floor temperature 28 and safety hysteresis 1 (maintain-comfort and boost
off), the computed raw target 31 reaches the maximum, and
`get_floor_target` returns 28 — the maximum itself — not
28 − 1 = 27 as the claim requires. -/
theorem claimC2_counterexample :
    rawFloorTarget 26 22 5 false false (3/2) = 31 ∧ ((31 : ℚ) ≥ 28) ∧
    getFloorTarget 26 22 28 5 false false (3/2) = 28 ∧ ((28 : ℚ) ≠ 28 - 1) := by
  refine ⟨?_, by norm_num, ?_, by norm_num⟩ <;>
    norm_num [rawFloorTarget, getFloorTarget, qmin]

/-- Claim C2, amended: the floor-target computation ends with
`min(max_floor_temp, floor_target)`, so a target that reaches or exceeds
`max_floor_temp` is clamped to `max_floor_temp` itself — the
`safety_hysteresis` margin of the claim is not applied (indeed
`get_floor_target` does not receive the hysteresis at all). -/
theorem claimC2_amended (roomTemp targetRoom maxFloorTemp comfortOffset : ℚ)
    (maintainComfort boostMode : Bool) (boostTempDiff : ℚ) :
    getFloorTarget roomTemp targetRoom maxFloorTemp comfortOffset
        maintainComfort boostMode boostTempDiff =
      min maxFloorTemp
        (rawFloorTarget roomTemp targetRoom comfortOffset
          maintainComfort boostMode boostTempDiff) ∧
    getFloorTarget roomTemp targetRoom maxFloorTemp comfortOffset
        maintainComfort boostMode boostTempDiff ≤ maxFloorTemp := by
  constructor
  · simp only [getFloorTarget, rawFloorTarget, qmin_eq]
  · simp only [getFloorTarget, qmin_eq]
    exact min_le_left _ _

/-- Claim C8, counterexample: a host state whose string parses to a
non-finite float (Python's `float("nan")` succeeds and raises no
ValueError) is surfaced to the core as that non-finite number, not as an
absent reading. -/
theorem claimC8_counterexample :
    getSensorValue (some (HostState.strVal (some PyFloat.nan))) = some PyFloat.nan ∧
    some PyFloat.nan ≠ (none : Option PyFloat) := by
  exact ⟨rfl, by simp⟩

/-- Claim C8, amended: `_get_sensor_values` surfaces None exactly for a
missing entity, the `unavailable` / `unknown` states, and strings on which
`float` raises ValueError; any state whose string `float` parses — the
non-finite `nan`/`inf` strings included — is surfaced as the parsed value
(the code catches only ValueError and never checks finiteness). -/
theorem claimC8_amended :
    (∀ st : Option HostState,
        getSensorValue st = none ↔
          (st = none ∨ st = some HostState.unavailable ∨
           st = some HostState.unknown ∨ st = some (HostState.strVal none))) ∧
    (∀ f : PyFloat, getSensorValue (some (HostState.strVal (some f))) = some f) := by
  constructor
  · intro st
    rcases st with _ | h
    · simp [getSensorValue]
    · cases h with
      | unavailable => simp [getSensorValue]
      | unknown => simp [getSensorValue]
      | strVal p => cases p <;> simp [getSensorValue]
  · intro f
    rfl

/-- Claim C4: the veto toggle budget.  Forced consumption (engaging the
veto) always succeeds; after any `consume` the token balance never exceeds
capacity because the refill is capped before the availability check; a
denied non-forced `consume` (delayed release) leaves the bucket exactly as
refilled, with no tokens removed; and the spec's §8 scenario with capacity
2 and refill 1/300 tokens/s runs exactly as claimed through
`_check_safety_veto`: engage at floor 29 (2→1), release at 26 (1→0),
re-engage at 29 (0→−1, forced), release at 26 denied with the veto held
and tokens still −1, and the same release succeeding 600 s later (−1
refills to 1, consuming to 0). -/
theorem claimC4_theorem :
    (∀ (b : BudgetBucket) (now amount : ℚ),
        (bucketConsume b now amount true).1 = true) ∧
    (∀ (b : BudgetBucket) (now amount : ℚ) (force : Bool), 0 ≤ amount →
        (bucketConsume b now amount force).2.tokens ≤ b.capacity) ∧
    (∀ (b : BudgetBucket) (now amount : ℚ),
        (bucketConsume b now amount false).1 = false →
        (bucketConsume b now amount false).2 = bucketRefill b now) ∧
    (checkSafetyVeto 28 1 (some 29) (some 20) false ⟨2, 1/300, 2, 0⟩ false 0 =
      (true, ⟨2, 1/300, 1, 0⟩)) ∧
    (checkSafetyVeto 28 1 (some 26) (some 20) true ⟨2, 1/300, 1, 0⟩ false 0 =
      (false, ⟨2, 1/300, 0, 0⟩)) ∧
    (checkSafetyVeto 28 1 (some 29) (some 20) false ⟨2, 1/300, 0, 0⟩ false 0 =
      (true, ⟨2, 1/300, -1, 0⟩)) ∧
    (checkSafetyVeto 28 1 (some 26) (some 20) true ⟨2, 1/300, -1, 0⟩ false 0 =
      (true, ⟨2, 1/300, -1, 0⟩)) ∧
    (checkSafetyVeto 28 1 (some 26) (some 20) true ⟨2, 1/300, -1, 0⟩ false 600 =
      (false, ⟨2, 1/300, 0, 600⟩)) := by
  refine ⟨?_, ?_, ?_, ?_, ?_, ?_, ?_, ?_⟩
  · intro b now amount
    simp [bucketConsume]
  · intro b now amount force h
    have hr : (bucketRefill b now).tokens ≤ b.capacity := by
      simp only [bucketRefill, qmin_eq]
      exact min_le_left _ _
    simp only [bucketConsume]
    split_ifs with hc
    · exact le_trans (sub_le_self _ h) hr
    · exact hr
  · intro b now amount h
    simp only [bucketConsume, Bool.false_eq_true, false_or] at h ⊢
    split_ifs at h ⊢ with hc
    · rfl
  all_goals
    norm_num [checkSafetyVeto, bucketConsume, bucketRefill, qmin]

/-- Claim C4, witness for the hypotheses of the general parts. -/
theorem claimC4_witness :
    (0 : ℚ) ≤ 1 ∧
    (bucketConsume ⟨2, 1/300, 2, 0⟩ 0 1 false).2.tokens ≤ (2 : ℚ) :=
  ⟨by norm_num, claimC4_theorem.2.1 ⟨2, 1/300, 2, 0⟩ 0 1 false (by norm_num)⟩

set_option maxRecDepth 10000 in
/-- Claim C5: for every PID configuration with ki > 0, the integral error
after `calculate`, `pause_integration` or `reset` lies in [0, 100/ki];
with ki = 0 the output is independent of the stored integral error (the
integral contributes nothing); under the spec's saturating scenario
(kp = 0, ki = 1, error 100 held for 150 ticks of dt = 1) every one of the
150 outputs is exactly 100; and no output of `calculate` ever exceeds
100. -/
theorem claimC5_theorem :
    (∀ (c : PIDConfig) (s : PIDState) (sp pv dt : ℚ), 0 < c.ki →
        0 ≤ (pidCalculate c s sp pv dt).2.integralError ∧
        (pidCalculate c s sp pv dt).2.integralError ≤ 100 / c.ki) ∧
    (∀ (c : PIDConfig) (s : PIDState), 0 < c.ki →
        (pidPauseIntegration s).integralError = 0 ∧
        pidReset.integralError = 0 ∧ (0 : ℚ) ≤ 100 / c.ki) ∧
    (∀ (c : PIDConfig) (i₁ i₂ : ℚ) (lp : Option ℚ) (sp pv dt : ℚ), c.ki = 0 →
        (pidCalculate c ⟨i₁, lp⟩ sp pv dt).1 = (pidCalculate c ⟨i₂, lp⟩ sp pv dt).1) ∧
    ((pidRun ⟨0, 1, 0⟩ PIDState.init 100 0 1 150).1 = List.replicate 150 100) ∧
    (∀ (c : PIDConfig) (s : PIDState) (sp pv dt : ℚ),
        (pidCalculate c s sp pv dt).1 ≤ 100) := by
  refine ⟨?_, ?_, ?_, ?_, ?_⟩
  · intro c s sp pv dt h
    simp only [pidCalculate, if_pos h, qmax_eq, qmin_eq]
    constructor
    · exact le_max_left 0 _
    · have h100 : (0 : ℚ) ≤ 100 / c.ki := by positivity
      exact max_le h100 (min_le_left _ _)
  · intro c s h
    refine ⟨rfl, rfl, ?_⟩
    positivity
  · intro c i₁ i₂ lp sp pv dt h
    simp [pidCalculate, h]
  · norm_num [pidRun, pidCalculate, PIDState.init, qmin, qmax, List.replicate]
  · intro c s sp pv dt
    simp only [pidCalculate, qmax_eq, qmin_eq]
    exact max_le (by norm_num) (min_le_left _ _)

/-- Claim C5, witness: instantiates the integral bound at ki = 2. -/
theorem claimC5_witness :
    (0 : ℚ) < 2 ∧
    (0 ≤ (pidCalculate ⟨1, 2, 0⟩ PIDState.init 21 20 1).2.integralError ∧
     (pidCalculate ⟨1, 2, 0⟩ PIDState.init 21 20 1).2.integralError ≤ 100 / 2) :=
  ⟨by norm_num, claimC5_theorem.1 ⟨1, 2, 0⟩ PIDState.init 21 20 1 (by norm_num)⟩

/-- Helper: within the minimum hold window the previous reported relay
state is maintained, whatever the current cycle position and demand. -/
theorem IRFloor.tpiHold (c : TPIConfig) (s : TPIState) (now d : ℚ) (b : Bool) (tc : ℚ)
    (hs : s.lastRelay = some (b, tc)) (hlt : now - tc < c.minCycleDuration) :
    (tpiGetRelayState c s now d).1 = b := by
  simp only [tpiGetRelayState, hs]
  split_ifs <;> first | rfl | (exfalso; linarith)

/-- Helper: whenever the reported relay state equals the previous one the
recorded last-change pair is left untouched. -/
theorem IRFloor.tpiKeep (c : TPIConfig) (s : TPIState) (now d : ℚ) (b : Bool) (tc : ℚ)
    (hs : s.lastRelay = some (b, tc)) (heq : (tpiGetRelayState c s now d).1 = b) :
    (tpiGetRelayState c s now d).2.lastRelay = some (b, tc) := by
  simp only [tpiGetRelayState, hs] at heq ⊢
  split_ifs at heq ⊢ <;> simp_all

/-- Claim C10: the TPI minimum-hold hysteresis.  When a last reported
state exists, the reported state differs from it only if at least
min_cycle_duration has elapsed since the recorded last change; within the
hold window the previous state is maintained; whenever the reported state
equals the previous one the recorded change time is left untouched (so the
hold is measured from the last actual change); and `reset_cycle` clears
the entire history. -/
theorem claimC10_theorem :
    (∀ (c : TPIConfig) (s : TPIState) (now d : ℚ) (b : Bool) (tc : ℚ),
        s.lastRelay = some (b, tc) → now - tc < c.minCycleDuration →
        (tpiGetRelayState c s now d).1 = b) ∧
    (∀ (c : TPIConfig) (s : TPIState) (now d : ℚ) (b : Bool) (tc : ℚ),
        s.lastRelay = some (b, tc) →
        (tpiGetRelayState c s now d).1 ≠ b →
        now - tc ≥ c.minCycleDuration) ∧
    (∀ (c : TPIConfig) (s : TPIState) (now d : ℚ) (b : Bool) (tc : ℚ),
        s.lastRelay = some (b, tc) →
        (tpiGetRelayState c s now d).1 = b →
        (tpiGetRelayState c s now d).2.lastRelay = some (b, tc)) ∧
    (tpiResetCycle.cycleStart = none ∧ tpiResetCycle.lastRelay = none) := by
  refine ⟨?_, ?_, ?_, rfl, rfl⟩
  · intro c s now d b tc hs hlt
    exact IRFloor.tpiHold c s now d b tc hs hlt
  · intro c s now d b tc hs hne
    by_contra hge
    exact hne (IRFloor.tpiHold c s now d b tc hs (not_le.mp hge))
  · intro c s now d b tc hs heq
    exact IRFloor.tpiKeep c s now d b tc hs heq

/-- Claim C10, witness: a held state 10 s after a change with a 60 s
minimum hold. -/
theorem claimC10_witness :
    (⟨some 0, some (true, 0)⟩ : TPIState).lastRelay = some (true, 0) ∧
    (10 : ℚ) - 0 < 60 ∧
    (tpiGetRelayState ⟨900, 60⟩ ⟨some 0, some (true, 0)⟩ 10 0).1 = true :=
  ⟨rfl, by norm_num,
    claimC10_theorem.1 ⟨900, 60⟩ ⟨some 0, some (true, 0)⟩ 10 0 true 0 rfl (by norm_num)⟩

/-- Helper: the cascade emits one state per heater. -/
theorem IRFloor.cascadeLength (hs : List Heater) :
    ∀ rq : ℚ, (calculateHeaterStatesAux hs rq).1.length = hs.length := by
  induction hs with
  | nil => intro rq; rfl
  | cons h rest ih =>
      intro rq
      simp only [calculateHeaterStatesAux]
      split_ifs <;> simp [ih]

/-- Helper: with positive power ratings and no remaining required power,
the cascade turns every heater fully off and designates no TPI heater. -/
theorem IRFloor.cascadeNonpos :
    ∀ (hs : List Heater) (rp : ℚ), (∀ x ∈ hs, 0 < x.power) → rp ≤ 0 →
      (∀ st ∈ (calculateHeaterStatesAux hs rp).1,
        st.shouldBeOn = false ∧ st.dutyCycle = 0) ∧
      (calculateHeaterStatesAux hs rp).2 = none := by
  intro hs
  induction hs with
  | nil =>
      intro rp _ _
      exact ⟨by simp [calculateHeaterStatesAux], rfl⟩
  | cons h rest ih =>
      intro rp hp hrp
      have hph : 0 < h.power := hp h (List.mem_cons_self h rest)
      have hrest : ∀ x ∈ rest, 0 < x.power :=
        fun x hx => hp x (List.mem_cons_of_mem _ hx)
      have hc1 : ¬(rp ≥ h.power) := by
        intro hge
        linarith
      have hc2 : ¬(rp > 0) := not_lt.mpr hrp
      obtain ⟨ha, hb⟩ := ih rp hrest hrp
      simp only [calculateHeaterStatesAux, if_neg hc1, if_neg hc2]
      refine ⟨?_, hb⟩
      intro st hst
      rcases List.mem_cons.mp hst with h1 | h2
      · subst h1
        exact ⟨rfl, rfl⟩
      · exact ha st h2

/-- Helper: positional characterisation of the cascade — at each priority
position the heater is fully on when the running required power covers its
rating, fractional with duty `leftover/power·100` when the leftover is
strictly between 0 and its rating, and off when nothing is left. -/
theorem IRFloor.cascadeChar :
    ∀ (hs : List Heater) (rp : ℚ) (i : ℕ) (h : Heater),
      (∀ x ∈ hs, 0 < x.power) → hs[i]? = some h →
      (cascadeLeftover hs rp i ≥ h.power →
        (calculateHeaterStatesAux hs rp).1[i]? = some ⟨h.id, true, 100⟩) ∧
      (0 < cascadeLeftover hs rp i ∧ cascadeLeftover hs rp i < h.power →
        (calculateHeaterStatesAux hs rp).1[i]? =
          some ⟨h.id, false, cascadeLeftover hs rp i / h.power * 100⟩) ∧
      (cascadeLeftover hs rp i ≤ 0 →
        (calculateHeaterStatesAux hs rp).1[i]? = some ⟨h.id, false, 0⟩) := by
  intro hs
  induction hs with
  | nil =>
      intro rp i h _ hget
      simp at hget
  | cons hd rest ih =>
      intro rp i h hp hget
      have hph : 0 < hd.power := hp hd (List.mem_cons_self hd rest)
      have hrest : ∀ x ∈ rest, 0 < x.power :=
        fun x hx => hp x (List.mem_cons_of_mem _ hx)
      cases i with
      | zero =>
          simp only [List.getElem?_cons_zero, Option.some.injEq] at hget
          subst hget
          refine ⟨?_, ?_, ?_⟩
          · intro hge
            simp only [cascadeLeftover] at hge
            simp [calculateHeaterStatesAux, if_pos hge, cascadeLeftover]
          · intro hfrac
            simp only [cascadeLeftover] at hfrac
            have hnge : ¬(rp ≥ hd.power) := not_le.mpr hfrac.2
            simp [calculateHeaterStatesAux, if_neg hnge, if_pos hfrac.1, cascadeLeftover]
          · intro hle
            simp only [cascadeLeftover] at hle
            have hnge : ¬(rp ≥ hd.power) := not_le.mpr (lt_of_le_of_lt hle hph)
            have hnpos : ¬(rp > 0) := not_lt.mpr hle
            simp [calculateHeaterStatesAux, if_neg hnge, if_neg hnpos]
      | succ j =>
          have hget2 : rest[j]? = some h := by simpa using hget
          by_cases hge : rp ≥ hd.power
          · have hL : cascadeLeftover (hd :: rest) rp (j + 1) =
                cascadeLeftover rest (rp - hd.power) j := by
              simp [cascadeLeftover, if_pos hge]
            have hS : ∀ o : Option HState,
                ((calculateHeaterStatesAux (hd :: rest) rp).1[j + 1]? = o) =
                ((calculateHeaterStatesAux rest (rp - hd.power)).1[j]? = o) := by
              intro o
              simp [calculateHeaterStatesAux, if_pos hge]
            refine ⟨?_, ?_, ?_⟩ <;> rw [hL, hS] <;>
              first
              | exact (ih (rp - hd.power) j h hrest hget2).1
              | exact (ih (rp - hd.power) j h hrest hget2).2.1
              | exact (ih (rp - hd.power) j h hrest hget2).2.2
          · by_cases hpos : rp > 0
            · have hL : cascadeLeftover (hd :: rest) rp (j + 1) =
                  cascadeLeftover rest 0 j := by
                simp [cascadeLeftover, if_neg hge, if_pos hpos]
              have hS : ∀ o : Option HState,
                  ((calculateHeaterStatesAux (hd :: rest) rp).1[j + 1]? = o) =
                  ((calculateHeaterStatesAux rest 0).1[j]? = o) := by
                intro o
                simp [calculateHeaterStatesAux, if_neg hge, if_pos hpos]
              refine ⟨?_, ?_, ?_⟩ <;> rw [hL, hS] <;>
                first
                | exact (ih 0 j h hrest hget2).1
                | exact (ih 0 j h hrest hget2).2.1
                | exact (ih 0 j h hrest hget2).2.2
            · have hL : cascadeLeftover (hd :: rest) rp (j + 1) =
                  cascadeLeftover rest rp j := by
                simp [cascadeLeftover, if_neg hge, if_neg hpos]
              have hS : ∀ o : Option HState,
                  ((calculateHeaterStatesAux (hd :: rest) rp).1[j + 1]? = o) =
                  ((calculateHeaterStatesAux rest rp).1[j]? = o) := by
                intro o
                simp [calculateHeaterStatesAux, if_neg hge, if_neg hpos]
              refine ⟨?_, ?_, ?_⟩ <;> rw [hL, hS] <;>
                first
                | exact (ih rp j h hrest hget2).1
                | exact (ih rp j h hrest hget2).2.1
                | exact (ih rp j h hrest hget2).2.2

/-- Claim C6: the cascading power bucket.  Scanning the priority order
with running required power (`cascadeLeftover`): a heater whose rating is
covered is fully ON at 100 % duty and its power subtracted, the first
heater with a fractional leftover gets duty `leftover/power·100`, and
heaters reached with nothing left are OFF at 0 % duty; consequently at
most one heater carries a fractional duty.  For ratings
[2000 W, 1000 W, 500 W]: 80 % demand (required 2800 W) gives heater 1 ON
at 100 %, heater 2 the TPI heater at 80 % duty, heater 3 OFF at 0 %;
100 % demand turns all three fully ON; 0 % demand turns all OFF. -/
theorem claimC6_theorem :
    (∀ (hs : List Heater) (rp : ℚ) (i : ℕ) (h : Heater),
        (∀ x ∈ hs, 0 < x.power) → hs[i]? = some h →
        (cascadeLeftover hs rp i ≥ h.power →
          (calculateHeaterStatesAux hs rp).1[i]? = some ⟨h.id, true, 100⟩) ∧
        (0 < cascadeLeftover hs rp i ∧ cascadeLeftover hs rp i < h.power →
          (calculateHeaterStatesAux hs rp).1[i]? =
            some ⟨h.id, false, cascadeLeftover hs rp i / h.power * 100⟩) ∧
        (cascadeLeftover hs rp i ≤ 0 →
          (calculateHeaterStatesAux hs rp).1[i]? = some ⟨h.id, false, 0⟩)) ∧
    (∀ (hs : List Heater) (rp : ℚ), (∀ x ∈ hs, 0 < x.power) →
        List.countP (fun st => decide (0 < st.dutyCycle) && decide (st.dutyCycle < 100))
          (calculateHeaterStatesAux hs rp).1 ≤ 1) ∧
    ((applyDemand ⟨[⟨0, 2000⟩, ⟨1, 1000⟩, ⟨2, 500⟩], 900, 60⟩ ⟨0, none⟩ 0 80).1 =
      [⟨0, true, 100⟩, ⟨1, true, 80⟩, ⟨2, false, 0⟩]) ∧
    ((applyDemand ⟨[⟨0, 2000⟩, ⟨1, 1000⟩, ⟨2, 500⟩], 900, 60⟩ ⟨0, none⟩ 0 100).1 =
      [⟨0, true, 100⟩, ⟨1, true, 100⟩, ⟨2, true, 100⟩]) ∧
    ((applyDemand ⟨[⟨0, 2000⟩, ⟨1, 1000⟩, ⟨2, 500⟩], 900, 60⟩ ⟨0, none⟩ 0 0).1 =
      [⟨0, false, 0⟩, ⟨1, false, 0⟩, ⟨2, false, 0⟩]) := by
  refine ⟨IRFloor.cascadeChar, ?_, ?_, ?_, ?_⟩
  · intro hs
    induction hs with
    | nil =>
        intro rp _
        simp [calculateHeaterStatesAux]
    | cons hd rest ih =>
        intro rp hp
        have hrest : ∀ x ∈ rest, 0 < x.power :=
          fun x hx => hp x (List.mem_cons_of_mem _ hx)
        simp only [calculateHeaterStatesAux]
        split_ifs with h1 h2
        · have hrec := ih (rp - hd.power) hrest
          rw [List.countP_cons]
          norm_num
          exact hrec
        · have hrest0 := (IRFloor.cascadeNonpos rest 0 hrest le_rfl).1
          have hcount0 :
              List.countP (fun st => decide (0 < st.dutyCycle) && decide (st.dutyCycle < 100))
                (calculateHeaterStatesAux rest 0).1 = 0 := by
            rw [List.countP_eq_zero]
            intro st hst
            simp [(hrest0 st hst).2]
          rw [List.countP_cons, hcount0]
          split_ifs <;> norm_num
        · have hrec := ih rp hrest
          rw [List.countP_cons]
          norm_num
          exact hrec
  all_goals
    norm_num [applyDemand, getPrioritizedHeaters, calculateHeaterStatesAux,
      calculateTpiState, Option.getD, qmin, qmax]

/-- Claim C6, witness: the at-most-one-fractional bound at the example
ratings and 80 % demand. -/
theorem claimC6_witness :
    (∀ x ∈ ([⟨0, 2000⟩, ⟨1, 1000⟩, ⟨2, 500⟩] : List Heater), 0 < x.power) ∧
    List.countP (fun st => decide (0 < st.dutyCycle) && decide (st.dutyCycle < 100))
      (calculateHeaterStatesAux [⟨0, 2000⟩, ⟨1, 1000⟩, ⟨2, 500⟩] 2800).1 ≤ 1 :=
  ⟨by decide, claimC6_theorem.2.1 [⟨0, 2000⟩, ⟨1, 1000⟩, ⟨2, 500⟩] 2800 (by decide)⟩

/-- Claim C7: when every floor and room reading is absent in a tick, the
fusion filter performs only the prediction step — for any implementation
of the external measurement update, which is never consulted — so the
exposed fused floor and room temperatures are exactly the predicted
position components of the prior estimate. -/
theorem claimC7_theorem (t : KalmanTuning)
    (mU : KFState → List (ℚ × ℕ) → KFState) (numFloor : ℕ) (s : KFState)
    (fv rv : List (Option ℚ)) (power dtArg : ℚ)
    (hf : ∀ v ∈ fv, v = none) (hr : ∀ v ∈ rv, v = none) :
    fusionUpdate t mU numFloor s fv rv power dtArg =
      predictStep t (dtAdjust s dtArg) power ∧
    kfFloorTemp (fusionUpdate t mU numFloor s fv rv power dtArg) =
      (predictStep t (dtAdjust s dtArg) power).x.tFloor ∧
    kfRoomTemp (fusionUpdate t mU numFloor s fv rv power dtArg) =
      (predictStep t (dtAdjust s dtArg) power).x.tRoom := by
  have hmain : fusionUpdate t mU numFloor s fv rv power dtArg =
      predictStep t (dtAdjust s dtArg) power := by
    simp only [fusionUpdate, IRFloor.collectValid_allNone fv 0 hf,
      IRFloor.collectValid_allNone rv numFloor hr, List.nil_append,
      List.isEmpty_nil, if_true]
  exact ⟨hmain, by rw [hmain]; rfl, by rw [hmain]; rfl⟩

/-- Claim C7, witness: a tick with one absent floor and one absent room
reading on the default-initialised filter state. -/
theorem claimC7_witness :
    (∀ v ∈ ([none] : List (Option ℚ)), v = none) ∧
    fusionUpdate KalmanTuning.default (fun s _ => s) 1
        ⟨⟨20, 0, 20, 0⟩, (10 : ℚ) • 1, 60⟩ [none] [none] 0 60 =
      predictStep KalmanTuning.default
        (dtAdjust ⟨⟨20, 0, 20, 0⟩, (10 : ℚ) • 1, 60⟩ 60) 0 :=
  ⟨by simp,
    (claimC7_theorem KalmanTuning.default (fun s _ => s) 1
      ⟨⟨20, 0, 20, 0⟩, (10 : ℚ) • 1, 60⟩ [none] [none] 0 60
      (by simp) (by simp)).1⟩

/-- Claim C9, counterexample: with a single 1000 W heater and a 900 s
cycle, a first call at t = 0 with 50 % demand designates a TPI heater and
starts the cycle at 0; a call at t = 1000 s — a full cycle period past the
cycle start — with 0 % demand designates no TPI heater, so the rotation
index is not incremented at that boundary (it stays 0, where the claim
requires exactly one increment per boundary for every demand level). -/
theorem claimC9_counterexample :
    ((applyDemand ⟨[⟨0, 1000⟩], 900, 60⟩ ⟨0, none⟩ 0 50).2 =
      (⟨0, some 0⟩ : ShufflerState)) ∧
    ((1000 : ℚ) - 0 ≥ 900) ∧
    ((applyDemand ⟨[⟨0, 1000⟩], 900, 60⟩ ⟨0, some 0⟩ 1000 0).2.rotationIndex = 0) ∧
    ((0 : ℕ) ≠ 1) := by
  refine ⟨?_, by norm_num, ?_, by norm_num⟩ <;>
    norm_num [applyDemand, getPrioritizedHeaters, calculateHeaterStatesAux,
      calculateTpiState, Option.getD, qmin, qmax]

/-- Claim C9, amended: the rotation index is incremented exactly once per
cycle rollover detected by `_calculate_tpi_state`, which runs only when
the cascade designates a fractional TPI heater; a demand of 0 % (no TPI
heater, with positive power ratings) leaves the shuffler state — rotation
index and cycle start — completely untouched, even across a period
boundary.  Rotating by the heater count is the identity: the priority
order is periodic in the rotation index with period `heaters.length`, and
at index 0 it is the original list. -/
theorem claimC9_amended :
    (∀ (cfg : ShufflerConfig) (s : ShufflerState) (now duty t0 : ℚ),
        s.cycleStart = some t0 → now - t0 ≥ cfg.cyclePeriod →
        (calculateTpiState cfg s now duty).2.rotationIndex = s.rotationIndex + 1) ∧
    (∀ (cfg : ShufflerConfig) (s : ShufflerState) (now duty t0 : ℚ),
        s.cycleStart = some t0 → now - t0 < cfg.cyclePeriod →
        (calculateTpiState cfg s now duty).2.rotationIndex = s.rotationIndex) ∧
    (∀ (cfg : ShufflerConfig) (s : ShufflerState) (now : ℚ),
        (∀ x ∈ cfg.heaters, 0 < x.power) →
        (applyDemand cfg s now 0).2 = s) ∧
    (∀ (hs : List Heater) (r : ℕ),
        getPrioritizedHeaters hs (r + hs.length) = getPrioritizedHeaters hs r) ∧
    (∀ hs : List Heater, getPrioritizedHeaters hs 0 = hs) := by
  refine ⟨?_, ?_, ?_, ?_, ?_⟩
  · intro cfg s now duty t0 h1 h2
    simp only [calculateTpiState, h1, Option.getD_some]
    rw [if_pos h2]
  · intro cfg s now duty t0 h1 h2
    simp only [calculateTpiState, h1, Option.getD_some]
    rw [if_neg (not_le.mpr h2)]
  · intro cfg s now hp
    have hpp : ∀ x ∈ getPrioritizedHeaters cfg.heaters s.rotationIndex, 0 < x.power := by
      intro x hx
      apply hp
      simp only [getPrioritizedHeaters] at hx
      split_ifs at hx
      · exact hx
      · rcases List.mem_append.mp hx with hd | ht
        · exact List.drop_subset _ _ hd
        · exact List.take_subset _ _ ht
    have h0 : (cfg.heaters.map Heater.power).sum * (qmax 0 (qmin 100 0) / 100) = 0 := by
      norm_num [qmin, qmax]
    have hnone :=
      (IRFloor.cascadeNonpos (getPrioritizedHeaters cfg.heaters s.rotationIndex)
        0 hpp le_rfl).2
    simp only [applyDemand, h0, hnone]
  · intro hs r
    simp only [getPrioritizedHeaters]
    split_ifs with hl
    · rfl
    · rw [Nat.add_mod_right]
  · intro hs
    simp only [getPrioritizedHeaters]
    split_ifs with hl
    · rfl
    · simp

/-- Claim C9, witness: a rollover tick with a designated TPI heater does
increment the rotation index by exactly one. -/
theorem claimC9_witness :
    (⟨0, some 0⟩ : ShufflerState).cycleStart = some 0 ∧
    ((1000 : ℚ) - 0 ≥ 900) ∧
    (calculateTpiState ⟨[⟨0, 1000⟩], 900, 60⟩ ⟨0, some 0⟩ 1000 50).2.rotationIndex =
      0 + 1 :=
  ⟨rfl, by norm_num,
    claimC9_amended.1 ⟨[⟨0, 1000⟩], 900, 60⟩ ⟨0, some 0⟩ 1000 50 0 rfl (by norm_num)⟩

/-- Claim C3, counterexample: a control tick in which every raw floor and
room reading is absent does not force the veto.  The Kalman filter's fused
temperatures are plain state components and always numeric, so
`_check_safety_veto` receives numbers, not None: starting from an active
state with fused floor 25 °C / room 21 °C (limit 28, hysteresis 1, target
22), a tick with readings `[None]`, `[None]` runs predict-only fusion yet
leaves the veto released and computes a final demand of 10 % — where the
claim requires VETOED and all demands forced to 0.  (The measurement
update is instantiated with the identity; it is never invoked in this tick
because no reading is valid.) -/
theorem claimC3_counterexample :
    ((controlTick
        ⟨28, 5, 1, false, 3/2, false, ⟨10, 0, 0⟩, ⟨10, 0, 0⟩, KalmanTuning.default, 1⟩
        (fun s _ => s)
        ⟨some 25, some 21, some 22, true, true, false, ⟨2, 1/300, 2, 0⟩,
          PIDState.init, PIDState.init, TPIState.init, 0, 0, 0, 0,
          ⟨⟨25, 0, 21, 0⟩, (10 : ℚ) • 1, 1⟩⟩
        [none] [none] 0 1 false 0).vetoActive = false) ∧
    ((controlTick
        ⟨28, 5, 1, false, 3/2, false, ⟨10, 0, 0⟩, ⟨10, 0, 0⟩, KalmanTuning.default, 1⟩
        (fun s _ => s)
        ⟨some 25, some 21, some 22, true, true, false, ⟨2, 1/300, 2, 0⟩,
          PIDState.init, PIDState.init, TPIState.init, 0, 0, 0, 0,
          ⟨⟨25, 0, 21, 0⟩, (10 : ℚ) • 1, 1⟩⟩
        [none] [none] 0 1 false 0).finalDemand = 10) ∧
    ((10 : ℚ) ≠ 0) := by
  refine ⟨?_, ?_, by norm_num⟩ <;>
    norm_num [controlTick, fusionUpdate, dtAdjust, predictStep, collectValid,
      kfFloorTemp, kfRoomTemp, controlHeating, checkSafetyVeto, calculateDemand,
      dualPidCalculate, getFloorTarget, pidCalculate, bucketConsume, bucketRefill,
      KalmanTuning.default, PIDState.init, TPIState.init, qmin, qmax]

/-- Claim C3, amended: the fail-safe lives in the components.  The veto
gate itself returns VETOED, budget untouched, whenever either of its
(optional) fused temperature inputs is absent; on an active heating tick
whose fused inputs are absent the control path reports the veto and forces
the room, floor and final demands to 0; and a fusion tick with no valid
reading runs predict without update.  However, fused inputs are absent
only before the first fusion update: a tick with missing raw readings
feeds the retained (numeric) fused estimate to the gate, so it does not in
itself engage the veto (see the counterexample). -/
theorem claimC3_amended :
    (∀ (mx hy : ℚ) (roomT : Option ℚ) (veto : Bool) (budget : BudgetBucket)
        (bypass : Bool) (now : ℚ),
        checkSafetyVeto mx hy none roomT veto budget bypass now = (true, budget)) ∧
    (∀ (mx hy : ℚ) (floorT : Option ℚ) (veto : Bool) (budget : BudgetBucket)
        (bypass : Bool) (now : ℚ),
        checkSafetyVeto mx hy floorT none veto budget bypass now = (true, budget)) ∧
    (∀ (cfg : ClimateCfg) (s : ClimateState) (newFloor newRoom : Option ℚ) (now : ℚ),
        s.active = true → s.hvacHeat = true → (newFloor = none ∨ newRoom = none) →
        (controlHeating cfg s newFloor newRoom false now).vetoActive = true ∧
        (controlHeating cfg s newFloor newRoom false now).roomDemand = 0 ∧
        (controlHeating cfg s newFloor newRoom false now).floorDemand = 0 ∧
        (controlHeating cfg s newFloor newRoom false now).finalDemand = 0) ∧
    (∀ (t : KalmanTuning) (mU : KFState → List (ℚ × ℕ) → KFState) (numFloor : ℕ)
        (s : KFState) (fv rv : List (Option ℚ)) (power dtArg : ℚ),
        (∀ v ∈ fv, v = none) → (∀ v ∈ rv, v = none) →
        fusionUpdate t mU numFloor s fv rv power dtArg =
          predictStep t (dtAdjust s dtArg) power) := by
  refine ⟨?_, ?_, ?_, ?_⟩
  · intro mx hy roomT veto budget bypass now
    cases roomT <;> rfl
  · intro mx hy floorT veto budget bypass now
    cases floorT <;> rfl
  · intro cfg s newFloor newRoom now ha hh hnone
    have hv : checkSafetyVeto cfg.maxFloorTemp cfg.safetyHysteresis
        newFloor newRoom s.vetoActive s.budget false now = (true, s.budget) := by
      rcases hnone with h | h
      · subst h
        cases newRoom <;> rfl
      · subst h
        cases newFloor <;> rfl
    simp [controlHeating, ha, hh, hv]
  · intro t mU numFloor s fv rv power dtArg hf hr
    simp only [fusionUpdate, IRFloor.collectValid_allNone fv 0 hf,
      IRFloor.collectValid_allNone rv numFloor hr, List.nil_append,
      List.isEmpty_nil, if_true]

/-- Claim C3, witness: the active-tick fail-safe instantiated with an
absent fused floor value. -/
theorem claimC3_witness :
    (controlHeating
        ⟨28, 5, 1, false, 3/2, false, ⟨10, 0, 0⟩, ⟨10, 0, 0⟩, KalmanTuning.default, 1⟩
        ⟨some 25, some 21, some 22, true, true, false, ⟨2, 1/300, 2, 0⟩,
          PIDState.init, PIDState.init, TPIState.init, 0, 0, 0, 0,
          ⟨⟨25, 0, 21, 0⟩, (10 : ℚ) • 1, 1⟩⟩
        none (some 21) false 0).vetoActive = true ∧
    (controlHeating
        ⟨28, 5, 1, false, 3/2, false, ⟨10, 0, 0⟩, ⟨10, 0, 0⟩, KalmanTuning.default, 1⟩
        ⟨some 25, some 21, some 22, true, true, false, ⟨2, 1/300, 2, 0⟩,
          PIDState.init, PIDState.init, TPIState.init, 0, 0, 0, 0,
          ⟨⟨25, 0, 21, 0⟩, (10 : ℚ) • 1, 1⟩⟩
        none (some 21) false 0).roomDemand = 0 ∧
    (controlHeating
        ⟨28, 5, 1, false, 3/2, false, ⟨10, 0, 0⟩, ⟨10, 0, 0⟩, KalmanTuning.default, 1⟩
        ⟨some 25, some 21, some 22, true, true, false, ⟨2, 1/300, 2, 0⟩,
          PIDState.init, PIDState.init, TPIState.init, 0, 0, 0, 0,
          ⟨⟨25, 0, 21, 0⟩, (10 : ℚ) • 1, 1⟩⟩
        none (some 21) false 0).floorDemand = 0 ∧
    (controlHeating
        ⟨28, 5, 1, false, 3/2, false, ⟨10, 0, 0⟩, ⟨10, 0, 0⟩, KalmanTuning.default, 1⟩
        ⟨some 25, some 21, some 22, true, true, false, ⟨2, 1/300, 2, 0⟩,
          PIDState.init, PIDState.init, TPIState.init, 0, 0, 0, 0,
          ⟨⟨25, 0, 21, 0⟩, (10 : ℚ) • 1, 1⟩⟩
        none (some 21) false 0).finalDemand = 0 :=
  claimC3_amended.2.2.1
    ⟨28, 5, 1, false, 3/2, false, ⟨10, 0, 0⟩, ⟨10, 0, 0⟩, KalmanTuning.default, 1⟩
    ⟨some 25, some 21, some 22, true, true, false, ⟨2, 1/300, 2, 0⟩,
      PIDState.init, PIDState.init, TPIState.init, 0, 0, 0, 0,
      ⟨⟨25, 0, 21, 0⟩, (10 : ℚ) • 1, 1⟩⟩
    none (some 21) 0 rfl rfl (Or.inl rfl)
